import Mathlib

/-!
Verification of the CQ091 report-verification engine (`verfication_CQ091.py`).

The development shallowly embeds the core logic of the script:

* the label difference classifier `analyze_difference`;
* the structural column comparator of `test_standard_report_columns`;
* the summary reconciliation sections (`verify_visit_section`,
  `verify_exclusion_service_ended_section`,
  `verify_whereabouts_unknown_section`) together with their
  column-discovery helpers.

Modelling conventions:

* Python strings are Lean `String`s.  The Python string operations used by
  the script (`str.lower`, `str.split()`, `' '.join`, `in`, `sorted`) are
  re-implemented below by structural recursion over `String.data` so that
  every definition evaluates inside the kernel.  `str.lower` is modelled
  ASCII-only via `Char.toLower`, which covers every literal the script
  compares against.
* `difflib.SequenceMatcher(None, a, b).ratio()` is an external library
  routine; the classifier is parameterised over a similarity function
  `ratio : String → String → ℚ` standing for it (floats are modelled as
  exact rationals).
* A pandas detail-sheet row is a function from column name to `Option
  String`; `none` models a NaN cell, and `fillna('')` is `Option.getD ""`.
  A detail sheet (`DataFrame`) is its column list plus its row list.
* The summary sheet is a grid of `SummaryCell`s; a text cell records the
  result Python's `float()` would give on it, since that parse is the only
  thing the script does with it.
* Python numbers are exact rationals built with `mkRat`; `int()` truncation
  toward zero is `pyInt`; the float comparison `abs(x - y) < 0.01` is the
  exact rational comparison, implemented by integer cross-multiplication
  (`rateClose`) and related to `|x - y| < 1/100` by a bridge lemma.
* Code that raises (pandas `KeyError`) or returns an error-keyed dict is
  modelled with `Except String`.
-/

deriving instance DecidableEq for Except

namespace CQ091

/-! ## Python string primitives -/

/-- Python `str.lower()` (ASCII letters only, via `Char.toLower`). -/
def pyLower (s : String) : String := String.mk (s.data.map Char.toLower)

/-- Helper for `pySplit`: split a character list at whitespace runs,
`acc` holding the (reversed) current token. -/
def splitWsAux : List Char → List Char → List String
  | [], acc => if acc.isEmpty then [] else [String.mk acc.reverse]
  | c :: cs, acc =>
    if c.isWhitespace then
      if acc.isEmpty then splitWsAux cs []
      else String.mk acc.reverse :: splitWsAux cs []
    else splitWsAux cs (c :: acc)

/-- Python `s.split()` with no argument: split on whitespace runs,
discarding empty tokens. -/
def pySplit (s : String) : List String := splitWsAux s.data []

/-- Concatenate tokens with single spaces (the `' '.join(tokens)` pattern). -/
def joinWords : List String → List Char
  | [] => []
  | [t] => t.data
  | t :: ts => t.data ++ ' ' :: joinWords ts

/-- Python `' '.join(s.split())`: collapse whitespace runs to single
spaces and trim. -/
def normSpaces (s : String) : String := String.mk (joinWords (pySplit s))

/-- Infix test on character lists, by structural recursion. -/
def infixCL (p : List Char) : List Char → Bool
  | [] => p.isEmpty
  | c :: cs => List.isPrefixOf p (c :: cs) || infixCL p cs

/-- Python `pat in s` (substring containment). -/
def substrOf (pat s : String) : Bool := infixCL pat.data s.data

/-- Lexicographic comparison of character lists by code point, the order
Python `sorted` uses on strings. -/
def charListLe : List Char → List Char → Bool
  | [], _ => true
  | _ :: _, [] => false
  | a :: as, b :: bs => if a = b then charListLe as bs else decide (a < b)

/-- String comparison for `sortStrings`. -/
def strLe (a b : String) : Bool := charListLe a.data b.data

/-- Insert a string into an already sorted list. -/
def insertSorted (x : String) : List String → List String
  | [] => [x]
  | y :: ys => if strLe x y then x :: y :: ys else y :: insertSorted x ys

/-- Python `sorted` on a list of strings (insertion sort; any sort computes
the same list, which is all `analyze_difference` compares). -/
def sortStrings : List String → List String
  | [] => []
  | x :: xs => insertSorted x (sortStrings xs)

/-! ## Label Difference Classifier (`analyze_difference`) -/

/-- The closed set of classification outcomes returned by
`analyze_difference`.  The Python function renders each of these as a
fixed message string; `spellingError` carries the similarity score the
message reports. -/
inductive Verdict where
  | exactMatch
  | spaceDifference
  | caseDifference
  | spellingError (similarity : ℚ)
  | wordOrderDifference
  | extraWordsInVerification
  | missingWordsInVerification
  | contentDifference
deriving DecidableEq, Repr

/-- `analyze_difference(design_col, verification_col)`: ordered decision
cascade classifying why two labels differ.  `ratio` stands for
`difflib.SequenceMatcher(None, ·, ·).ratio()`, applied (as in the source)
to the lower-cased labels; the Python float literal `0.8` is the rational
`4/5`. -/
def analyze_difference (ratio : String → String → ℚ)
    (design_col verification_col : String) : Verdict :=
  if design_col = verification_col then .exactMatch
  else
    let design_norm := normSpaces design_col
    let verification_norm := normSpaces verification_col
    if design_norm = verification_norm then .spaceDifference
    else if pyLower design_col = pyLower verification_col then .caseDifference
    else
      let similarity := ratio (pyLower design_col) (pyLower verification_col)
      if similarity > mkRat 4 5 then .spellingError similarity
      else
        let design_words := pySplit (pyLower design_col)
        let verification_words := pySplit (pyLower verification_col)
        if sortStrings design_words = sortStrings verification_words then
          .wordOrderDifference
        else if design_words.all (fun w => verification_words.contains w) then
          .extraWordsInVerification
        else if verification_words.all (fun w => design_words.contains w) then
          .missingWordsInVerification
        else .contentDifference

/-! ## Structural Comparator (`test_standard_report_columns`) -/

/-- The `error_type` recorded in a discrepancy detail: either a classifier
verdict (for a positional mismatch) or the column-count mismatch marker. -/
inductive DiscrepancyKind where
  | verdict (v : Verdict)
  | countMismatch
deriving DecidableEq, Repr

/-- One entry of the `details` list built by
`test_standard_report_columns`: position (1-based; `none` renders the
source's `'N/A'` for the count-mismatch entry), the two labels (or the
`Total columns: n` texts for the count-mismatch entry), and the verdict. -/
structure ColumnDiscrepancy where
  column_number : Option Nat
  design : String
  verification : String
  error_type : DiscrepancyKind
deriving DecidableEq, Repr

/-- Result of one structural comparison (`passed`/`message`/`details`). -/
structure ComparisonResult where
  passed : Bool
  message : String
  details : List ColumnDiscrepancy
deriving DecidableEq, Repr

/-- One iteration of the comparison loop of
`test_standard_report_columns`: at index `i`, record a discrepancy when
the labels differ byte-for-byte. -/
def positionalDiscrepancy (ratio : String → String → ℚ)
    (design_columns verification_columns : List String) (i : Nat) :
    Option ColumnDiscrepancy :=
  let design_col := design_columns.getD i ""
  let verification_col := verification_columns.getD i ""
  if design_col = verification_col then none
  else some ⟨some (i + 1), design_col, verification_col,
             .verdict (analyze_difference ratio design_col verification_col)⟩

/-- The length check of `test_standard_report_columns`: one count-mismatch
entry when the lengths differ, nothing otherwise. -/
def countMismatchEntry (design_columns verification_columns : List String) :
    List ColumnDiscrepancy :=
  if design_columns.length = verification_columns.length then []
  else [⟨none,
         "Total columns: " ++ toString design_columns.length,
         "Total columns: " ++ toString verification_columns.length,
         .countMismatch⟩]

/-- The comparison loop of `test_standard_report_columns`: walk indices up
to the minimum length, record a discrepancy wherever the labels differ
byte-for-byte, then append one count-mismatch entry when the lengths
differ. -/
def compareColumns (ratio : String → String → ℚ)
    (design_columns verification_columns : List String) :
    List ColumnDiscrepancy :=
  (List.range (min design_columns.length verification_columns.length)).filterMap
    (positionalDiscrepancy ratio design_columns verification_columns) ++
  countMismatchEntry design_columns verification_columns

/-- `test_standard_report_columns`.  The two `Except` arguments model the
try-block that extracts the header rows from the two workbooks: reading
the design spec happens first, and any read failure is converted into a
failed result instead of propagating. -/
def test_standard_report_columns (ratio : String → String → ℚ)
    (standard_number : Nat)
    (design_read verification_read : Except String (List String)) :
    ComparisonResult :=
  match design_read with
  | .error e =>
    ⟨false, "Error reading files for Standard " ++ toString standard_number
            ++ ": " ++ e, []⟩
  | .ok design_columns =>
    match verification_read with
    | .error e =>
      ⟨false, "Error reading files for Standard " ++ toString standard_number
              ++ ": " ++ e, []⟩
    | .ok verification_columns =>
      let details := compareColumns ratio design_columns verification_columns
      if details.isEmpty then
        ⟨true, "Standard " ++ toString standard_number
               ++ " columns match perfectly", []⟩
      else
        ⟨false, "Standard " ++ toString standard_number
                ++ " column differences found", details⟩

/-! ## Numeric primitives for the reconciliation engine -/

/-- Python `int()` on an exact rational: truncation toward zero. -/
def pyInt (q : ℚ) : ℤ := q.num.tdiv q.den

/-- The integer-mode cell comparison
`int(calculated_value) == int(actual_value)`. -/
def pyIntEq (c a : ℚ) : Bool := pyInt c == pyInt a

/-- The compliance-rate cell comparison
`abs(calculated_float - actual_float) < 0.01`, computed exactly by integer
cross-multiplication (see `rateClose_iff`). -/
def rateClose (c a : ℚ) : Bool :=
  decide (100 * (c.num * (a.den : ℤ) - a.num * (c.den : ℤ)).natAbs
            < c.den * a.den)

/-! ## Sheet model -/

/-- A detail-sheet row: column name to cell content, `none` for NaN. -/
def Row : Type := String → Option String

/-- A detail sheet as pandas presents it to the script: the (whitespace-
stripped) column names plus the data rows. -/
structure DataFrame where
  cols : List String
  rows : List Row

/-- `series.fillna('').astype(str)` on one cell. -/
def pyStr (o : Option String) : String := o.getD ""

/-- `series.fillna('').astype(str).str.lower()` on one cell. -/
def pyLowerCell (o : Option String) : String := pyLower (o.getD "")

/-- One cell of the `Summary Total` sheet.  A `text` cell records the
result Python `float()` would give on it (`none` when the conversion
raises), which is the only use the script makes of a non-numeric cell. -/
inductive SummaryCell where
  | num (q : ℚ)
  | text (parseFloat : Option ℚ)
  | blank
deriving Repr

/-- The `Summary Total` sheet: its dimensions and a cell grid. -/
structure SummaryDF where
  nrows : Nat
  ncols : Nat
  cell : Nat → Nat → SummaryCell

/-- The null-coalescing of a summary cell performed before comparison:
NaN and unparseable text become `0`, numbers and parseable text their
value. -/
def summaryCellValue : SummaryCell → ℚ
  | .num q => q
  | .text (some q) => q
  | .text none => 0
  | .blank => 0

/-- Reading `summary_df.iloc[current_row, col_index]` guarded by the
bounds check; out of range leaves `actual_value = None`. -/
def summaryActual (s : SummaryDF) (r c : Nat) : Option ℚ :=
  if r < s.nrows ∧ c < s.ncols then some (summaryCellValue (s.cell r c))
  else none

/-- A Reconciliation Cell Result.  `matched` is the source's `match` key
and `sectionName` its `section` key (both are Lean keywords). -/
structure CellResult where
  calculated : ℚ
  actual : Option ℚ
  matched : Bool
  status : String
  sectionName : String
  rowType : String
deriving DecidableEq, Repr

/-- The integer-mode match computation shared by the exclusion-style
sections: `False` when the coordinate was out of range. -/
def matchInt (calculated : ℚ) (actual : Option ℚ) : Bool :=
  match actual with
  | some a => pyIntEq calculated a
  | none => false

/-- The match computation of `verify_visit_section`: tolerance comparison
for the compliance-rate row, integer comparison otherwise, `False` when
the coordinate was out of range. -/
def matchValue (row_type : String) (calculated : ℚ) (actual : Option ℚ) :
    Bool :=
  if row_type = "compliance_rate" then
    match actual with
    | some a => rateClose calculated a
    | none => false
  else matchInt calculated actual

/-- `B{row}`-style cell naming (`current_row` is 0-based, Excel rows are
1-based). -/
def cellName (col_letter : String) (current_row : Nat) : String :=
  col_letter ++ toString (current_row + 1)

/-- The fixed case-type table shared by every section: column letter,
case-type label, summary column index. -/
def case_types : List (String × String × Nat) :=
  [("B", ("child in care", 1)),
   ("C", ("adoption", 2)),
   ("D", ("formal customary care", 3)),
   ("E", ("kinship service", 4))]

/-! ## Column discovery -/

/-- The three required columns of `find_required_columns`, before the
missing-column check (`none` = not discovered). -/
structure FoundColumns where
  compliant_col : Option String
  change_reason_col : Option String
  case_type_col : Option String
deriving DecidableEq, Repr

/-- `find_required_columns(df, compliant_pattern)`: scan the column list;
each matching column overwrites the slot, so the last match wins, and the
`elif` chain gives the compliant pattern priority. -/
def find_required_columns (cols : List String) (compliant_pattern : String) :
    FoundColumns :=
  cols.foldl (fun acc col =>
    let col_lower := pyLower col
    if substrOf compliant_pattern col_lower then
      { acc with compliant_col := some col }
    else if substrOf "incorrect change reason" col_lower then
      { acc with change_reason_col := some col }
    else if substrOf "case type" col_lower then
      { acc with case_type_col := some col }
    else acc)
    ⟨none, none, none⟩

/-- The keys of `find_required_columns`' dict that are still `None`, in
insertion order. -/
def missingKeys (fc : FoundColumns) : List String :=
  (if fc.compliant_col = none then ["compliant_col"] else []) ++
  (if fc.change_reason_col = none then ["change_reason_col"] else []) ++
  (if fc.case_type_col = none then ["case_type_col"] else [])

/-- The discovered columns once the missing-column check has passed. -/
structure ReqCols where
  compliant_col : String
  change_reason_col : String
  case_type_col : String
deriving DecidableEq, Repr

/-- Unwrap a fully-discovered `FoundColumns` (fields default to `""`,
which the check guarantees is never used). -/
def unwrapColumns (fc : FoundColumns) : ReqCols :=
  ⟨fc.compliant_col.getD "", fc.change_reason_col.getD "",
   fc.case_type_col.getD ""⟩

/-- The missing-column gate of `verify_summary_total_counts` (its lines
checking Standard 1, then 2, then 3): the first report with a missing
required column aborts the whole reconciliation run with an error entry
listing the missing keys, before any cell result is computed. -/
def requiredColumnsCheck (c1 c2 c3 : FoundColumns) :
    Except String (ReqCols × ReqCols × ReqCols) :=
  if missingKeys c1 ≠ [] then
    .error ("Missing columns in Standard 1: " ++ toString (missingKeys c1))
  else if missingKeys c2 ≠ [] then
    .error ("Missing columns in Standard 2: " ++ toString (missingKeys c2))
  else if missingKeys c3 ≠ [] then
    .error ("Missing columns in Standard 3: " ++ toString (missingKeys c3))
  else .ok (unwrapColumns c1, unwrapColumns c2, unwrapColumns c3)

/-- `find_exclusion_column(df, visit_type)`: first column whose lowered
name contains both `exclusion` and `closed prior to due date` plus the
visit-type digit. -/
def find_exclusion_column (cols : List String) (visit_type : String) :
    Option String :=
  cols.find? (fun col =>
    let col_lower := pyLower col
    substrOf "exclusion" col_lower &&
    substrOf "closed prior to due date" col_lower &&
    (if visit_type = "7 day" then substrOf "7" col_lower
     else if visit_type = "30 day" then substrOf "30" col_lower
     else if visit_type = "90 day" then substrOf "90" col_lower
     else false))

/-- `find_case_type_column(df)`: first column containing `case type`. -/
def find_case_type_column (cols : List String) : Option String :=
  cols.find? (fun col => substrOf "case type" (pyLower col))

/-- `find_primary_placement_column(df)`: first column containing
`primary in care placement type`. -/
def find_primary_placement_column (cols : List String) : Option String :=
  cols.find? (fun col =>
    substrOf "primary in care placement type" (pyLower col))

/-- The case-type filter used by every section, with the FCC alias set. -/
def caseTypeFilter (case_type_col case_type : String) (r : Row) : Bool :=
  if case_type = "formal customary care" then
    ["fcc", "formal customary care"].contains (pyLowerCell (r case_type_col))
  else pyLowerCell (r case_type_col) == case_type

/-! ## `verify_visit_section` -/

/-- The compliance-status membership test of the *total* row (and of the
compliance-rate denominator): `Incomplete` counts only in the 90-day
section. -/
def visitTotalFilter (section_name compliant_val : String) : Bool :=
  if section_name = "90-day" then
    ["Compliant", "Not Compliant", "Incomplete"].contains compliant_val
  else ["Compliant", "Not Compliant"].contains compliant_val

/-- Row count of the *total* row for one case type. -/
def visitTotalCount (filtered : List Row) (cols : ReqCols)
    (section_name case_type : String) : Nat :=
  (filtered.filter (fun r =>
    caseTypeFilter cols.case_type_col case_type r &&
    visitTotalFilter section_name (pyStr (r cols.compliant_col)))).length

/-- Row count of the *compliant* row (and of the compliance-rate
numerator) for one case type: status equals `Compliant` exactly. -/
def visitCompliantCount (filtered : List Row) (cols : ReqCols)
    (case_type : String) : Nat :=
  (filtered.filter (fun r =>
    caseTypeFilter cols.case_type_col case_type r &&
    (pyStr (r cols.compliant_col) == "Compliant"))).length

/-- Row count of the *non-compliant* row for one case type. -/
def visitNonCompliantCount (filtered : List Row) (cols : ReqCols)
    (section_name case_type : String) : Nat :=
  (filtered.filter (fun r =>
    caseTypeFilter cols.case_type_col case_type r &&
    (if section_name = "90-day" then
      ["Not Compliant", "Incomplete"].contains (pyStr (r cols.compliant_col))
     else pyStr (r cols.compliant_col) == "Not Compliant"))).length

/-- The `calculated_value` of one `verify_visit_section` cell.  Counts are
exact naturals; the compliance rate is the exact rational
`compliant_count / total_count`, `0` when the denominator is `0` (the
source guards the division with `if total_count > 0`). -/
def visitCalculated (filtered : List Row) (cols : ReqCols)
    (section_name row_type case_type : String) : ℚ :=
  if row_type = "total" then
    mkRat (visitTotalCount filtered cols section_name case_type) 1
  else if row_type = "compliant" then
    mkRat (visitCompliantCount filtered cols case_type) 1
  else if row_type = "non_compliant" then
    mkRat (visitNonCompliantCount filtered cols section_name case_type) 1
  else
    let total_count := visitTotalCount filtered cols section_name case_type
    let compliant_count := visitCompliantCount filtered cols case_type
    if total_count > 0 then mkRat compliant_count total_count else 0

/-- One Reconciliation Cell Result of `verify_visit_section`. -/
def mkVisitCell (filtered : List Row) (cols : ReqCols) (summary : SummaryDF)
    (section_name row_type : String) (current_row : Nat)
    (case_type : String) (col_index : Nat) : CellResult :=
  let calculated := visitCalculated filtered cols section_name row_type case_type
  let actual := summaryActual summary current_row col_index
  let m := matchValue row_type calculated actual
  ⟨calculated, actual, m, if m then "PASS" else "FAIL", section_name, row_type⟩

/-- The four row types of a visit section, in loop order (the offset from
`start_row` is the position in this list). -/
def visitRowTypes : List String :=
  ["total", "compliant", "non_compliant", "compliance_rate"]

/-- `verify_visit_section(df, columns, summary_df, start_row, end_row,
section_name)`.  The error-keyed dict returned when the change-reason
filter leaves no rows is modelled as `Except.error` (the source's message
quotes `'No'`; the quotes are dropped here).  `end_row` is unused in the
source body as well. -/
def verify_visit_section (df : DataFrame) (cols : ReqCols)
    (summary : SummaryDF) (start_row _end_row : Nat)
    (section_name : String) : Except String (List (String × CellResult)) :=
  let filtered := df.rows.filter (fun r =>
    pyLowerCell (r cols.change_reason_col) == "no")
  if filtered.length = 0 then
    .error (section_name ++
      "_error: No records found with Incorrect Change Reason = No")
  else
    .ok (visitRowTypes.enum.flatMap (fun p =>
      let current_row := start_row + p.1
      case_types.map (fun ct =>
        (cellName ct.1 current_row,
         mkVisitCell filtered cols summary section_name p.2 current_row
           ct.2.1 ct.2.2))))

/-! ## `verify_exclusion_service_ended_section` -/

/-- One cell of the Exclusion - Service Ended section: count of rows of
this case type whose exclusion column says `yes` — except that the 90-day
row hardcodes `0` for the child-in-care case type. -/
def mkExclusionCell (df : DataFrame) (case_type_col exclusion_col : String)
    (summary : SummaryDF) (report_name : String) (current_row : Nat)
    (case_type : String) (col_index : Nat) : CellResult :=
  let calculated : ℚ :=
    if report_name = "90-day" ∧ case_type = "child in care" then 0
    else mkRat ((df.rows.filter (fun r =>
      caseTypeFilter case_type_col case_type r &&
      (pyLowerCell (r exclusion_col) == "yes"))).length) 1
  let actual := summaryActual summary current_row col_index
  let m := matchInt calculated actual
  ⟨calculated, actual, m, if m then "PASS" else "FAIL",
   "exclusion-service-ended", report_name⟩

/-- The four cells of one report row of the service-ended section. -/
def exclusionReportCells (df : DataFrame) (case_type_col exclusion_col : String)
    (summary : SummaryDF) (report_name : String) (current_row : Nat) :
    List (String × CellResult) :=
  case_types.map (fun ct =>
    (cellName ct.1 current_row,
     mkExclusionCell df case_type_col exclusion_col summary report_name
       current_row ct.2.1 ct.2.2))

/-- `verify_exclusion_service_ended_section`.  A missing exclusion column
aborts the section with the corresponding error entry before any cell is
computed; a missing case-type column makes `report_df[None]` raise inside
the loop (modelled as `Except.error`, which likewise discards all cells). -/
def verify_exclusion_service_ended_section (std1 std2 std3 : DataFrame)
    (summary : SummaryDF) (start_row _end_row : Nat) :
    Except String (List (String × CellResult)) :=
  match find_exclusion_column std1.cols "7 day" with
  | none =>
    .error "7 Day Private Visit Exclusion column not found in Standard 1 Report"
  | some excl1 =>
    match find_exclusion_column std2.cols "30 day" with
    | none =>
      .error "30 Day Private Visit Exclusion column not found in Standard 2 Report"
    | some excl2 =>
      match find_exclusion_column std3.cols "90 day" with
      | none =>
        .error "90 Day Visit Exclusion column not found in Standard 3 Report"
      | some excl3 =>
        match find_case_type_column std1.cols with
        | none => .error "KeyError: Case Type column not found"
        | some ctc1 =>
          match find_case_type_column std2.cols with
          | none => .error "KeyError: Case Type column not found"
          | some ctc2 =>
            match find_case_type_column std3.cols with
            | none => .error "KeyError: Case Type column not found"
            | some ctc3 =>
              .ok (exclusionReportCells std1 ctc1 excl1 summary "7-day" start_row ++
                   exclusionReportCells std2 ctc2 excl2 summary "30-day" (start_row + 1) ++
                   exclusionReportCells std3 ctc3 excl3 summary "90-day" (start_row + 2))

/-! ## `verify_whereabouts_unknown_section` -/

/-- The whereabouts-unknown count of one report for one case type, reading
the placement value of each row under the column name `placement_col`.
The section (see `verify_whereabouts_unknown_section`) always passes the
column name discovered in the Standard 1 report here, for all three
reports. -/
def whereaboutsCountUsing (df : DataFrame) (cols : ReqCols)
    (placement_col case_type : String) : Nat :=
  let filtered := df.rows.filter (fun r =>
    pyLowerCell (r cols.change_reason_col) == "no")
  (filtered.filter (fun r =>
    caseTypeFilter cols.case_type_col case_type r &&
    (pyLowerCell (r placement_col) == "whereabouts unknown"))).length

/-- One cell of the Whereabouts Unknown section; the 90-day row hardcodes
`0` for the child-in-care case type. -/
def mkWhereaboutsCell (df : DataFrame) (cols : ReqCols)
    (placement_col_std1 : String) (summary : SummaryDF)
    (report_name : String) (current_row : Nat) (case_type : String)
    (col_index : Nat) : CellResult :=
  let calculated : ℚ :=
    if report_name = "90-day" ∧ case_type = "child in care" then 0
    else mkRat (whereaboutsCountUsing df cols placement_col_std1 case_type) 1
  let actual := summaryActual summary current_row col_index
  let m := matchInt calculated actual
  ⟨calculated, actual, m, if m then "PASS" else "FAIL",
   "whereabouts-unknown", report_name⟩

/-- The four cells of one report row of the whereabouts section. -/
def whereaboutsReportCells (df : DataFrame) (cols : ReqCols)
    (placement_col_std1 : String) (summary : SummaryDF)
    (report_name : String) (current_row : Nat) :
    List (String × CellResult) :=
  case_types.map (fun ct =>
    (cellName ct.1 current_row,
     mkWhereaboutsCell df cols placement_col_std1 summary report_name
       current_row ct.2.1 ct.2.2))

/-- `verify_whereabouts_unknown_section`.  A primary-placement column is
discovered in each of the three reports (any miss aborts the section with
the corresponding error entry), but only the Standard 1 name is ever used
to read placement values — `filtered_df[placement_col_std1]` — for all
three reports.  When that name is not among a report's columns pandas
raises `KeyError` (modelled as `Except.error`, which likewise discards
all cells). -/
def verify_whereabouts_unknown_section (std1 std2 std3 : DataFrame)
    (cols1 cols2 cols3 : ReqCols) (summary : SummaryDF)
    (start_row _end_row : Nat) :
    Except String (List (String × CellResult)) :=
  match find_primary_placement_column std1.cols with
  | none =>
    .error "Primary Placement Type column not found in Standard 1 Report"
  | some placement_col_std1 =>
    match find_primary_placement_column std2.cols with
    | none =>
      .error "Primary Placement Type column not found in Standard 2 Report"
    | some _placement_col_std2 =>
      match find_primary_placement_column std3.cols with
      | none =>
        .error "Primary Placement Type column not found in Standard 3 Report"
      | some _placement_col_std3 =>
        if std1.cols.contains placement_col_std1 &&
           std2.cols.contains placement_col_std1 &&
           std3.cols.contains placement_col_std1 then
          .ok (whereaboutsReportCells std1 cols1 placement_col_std1 summary
                 "7-day" start_row ++
               whereaboutsReportCells std2 cols2 placement_col_std1 summary
                 "30-day" (start_row + 1) ++
               whereaboutsReportCells std3 cols3 placement_col_std1 summary
                 "90-day" (start_row + 2))
        else .error ("KeyError: " ++ placement_col_std1)

/-! ## Concrete instances used by counterexamples and witnesses -/

/-- Build a row from an association list (absent key = NaN cell). -/
def rowOf (l : List (String × String)) : Row := fun c => l.lookup c

/-- Discovered columns with short synthetic names. -/
def stdReqCols : ReqCols := ⟨"compliant", "chg", "ctype"⟩

/-- A child-in-care row that passes the change-reason filter and is
`Compliant`. -/
def cicCompliantRow : Row :=
  rowOf [("chg", "No"), ("ctype", "Child in Care"), ("compliant", "Compliant")]

/-- A one-row detail sheet. -/
def c1Df : DataFrame := ⟨["ctype", "chg", "compliant"], [cicCompliantRow]⟩

/-- A summary sheet whose every cell holds the number `1/2`. -/
def halfSummary : SummaryDF := ⟨40, 6, fun _ _ => .num (mkRat 1 2)⟩

/-- The 7-day visit section run on `c1Df` against `halfSummary`. -/
def c1Run : Except String (List (String × CellResult)) :=
  verify_visit_section c1Df stdReqCols halfSummary 2 5 "7-day"

/-- The cell results of `c1Run`. -/
def c1ResList : List (String × CellResult) := c1Run.toOption.getD []

/-- The `C3` cell of `c1Run`: calculated `0`, published value `1/2`,
`match` true. -/
def c1CellC3 : CellResult :=
  ⟨0, some (mkRat 1 2), true, "PASS", "7-day", "total"⟩

/-- A detail sheet with five child-in-care rows matching the child-in-care
total predicate. -/
def c2Df : DataFrame :=
  ⟨["ctype", "chg", "compliant"], List.replicate 5 cicCompliantRow⟩

/-- The 90-day visit section run on the five-child-in-care-row sheet. -/
def c2Run : Except String (List (String × CellResult)) :=
  verify_visit_section c2Df stdReqCols halfSummary 12 15 "90-day"

/-- A child-in-care row whose placement type is `Whereabouts Unknown`. -/
def c2wRow : Row :=
  rowOf [("Case Type", "Child in Care"), ("Incorrect Change Reason", "No"),
         ("Primary In Care Placement Type", "Whereabouts Unknown")]

/-- A detail sheet with five whereabouts-unknown child-in-care rows. -/
def c2wStd : DataFrame :=
  ⟨["Case Type", "Incorrect Change Reason", "7 Day Private Visit Compliant",
    "Primary In Care Placement Type"], List.replicate 5 c2wRow⟩

/-- Discovered columns of `c2wStd`. -/
def c2wCols : ReqCols :=
  ⟨"7 Day Private Visit Compliant", "Incorrect Change Reason", "Case Type"⟩

/-- The whereabouts section run with `c2wStd` as all three reports. -/
def c2wRun : Except String (List (String × CellResult)) :=
  verify_whereabouts_unknown_section c2wStd c2wStd c2wStd c2wCols c2wCols
    c2wCols halfSummary 18 20

/-- Discovered columns of the `c10` sheets. -/
def c10Cols : ReqCols := ⟨"compliant", "Incorrect Change Reason", "Case Type"⟩

/-- Standard 1 row for the `c10` scenario. -/
def c10Std1Row : Row :=
  rowOf [("Case Type", "Adoption"), ("Incorrect Change Reason", "No"),
         ("Primary In Care Placement Type One", "Home")]

/-- Standard 1 report: its placement column is
`Primary In Care Placement Type One`. -/
def c10Std1 : DataFrame :=
  ⟨["Case Type", "Incorrect Change Reason",
    "Primary In Care Placement Type One"], [c10Std1Row]⟩

/-- Standard 2 row: `Whereabouts Unknown` under Standard 1's column name,
`Home` under Standard 2's own first placement column. -/
def c10Std2Row : Row :=
  rowOf [("Case Type", "Adoption"), ("Incorrect Change Reason", "No"),
         ("Primary In Care Placement Type Two", "Home"),
         ("Primary In Care Placement Type One", "Whereabouts Unknown")]

/-- Standard 2 report: its own discovered placement column is
`Primary In Care Placement Type Two`, but it also carries a column with
Standard 1's name. -/
def c10Std2 : DataFrame :=
  ⟨["Case Type", "Incorrect Change Reason",
    "Primary In Care Placement Type Two",
    "Primary In Care Placement Type One"], [c10Std2Row]⟩

/-- The whereabouts section run on the `c10` sheets. -/
def c10Run : Except String (List (String × CellResult)) :=
  verify_whereabouts_unknown_section c10Std1 c10Std2 c10Std1 c10Cols c10Cols
    c10Cols halfSummary 18 20

/-- The cell results of `c10Run`. -/
def c10ResList : List (String × CellResult) := c10Run.toOption.getD []

/-- A `find_required_columns` outcome whose compliant column was not
discovered. -/
def c8Found : FoundColumns :=
  ⟨none, some "Incorrect Change Reason", some "Case Type"⟩

/-- A fully discovered `find_required_columns` outcome. -/
def c8FoundOk : FoundColumns := ⟨some "c", some "r", some "t"⟩

/-- A detail sheet with no exclusion column. -/
def c8NoExclDf : DataFrame := ⟨["Case Type"], []⟩

/-- A detail sheet carrying the 7-day exclusion column (and nothing that
matches the 30- or 90-day patterns). -/
def c8ExclDf1 : DataFrame :=
  ⟨["Case Type",
    "7 Day Private Visit Exclusion - Closed Prior to Due Date"], []⟩

/-- A detail sheet carrying the 30-day exclusion column (and nothing that
matches the 90-day pattern). -/
def c8ExclDf2 : DataFrame :=
  ⟨["Case Type",
    "30 Day Private Visit Exclusion - Closed Prior to Due Date"], []⟩

/-! ## Bridge lemmas -/

/-- The integer cell comparison as a proposition. -/
theorem pyIntEq_iff (c a : ℚ) : pyIntEq c a = true ↔ pyInt c = pyInt a := by
  simp [pyIntEq]

/-- The integer-mode match flag holds exactly when the coordinate was in
range and the truncated values agree. -/
theorem matchInt_iff (c : ℚ) (a? : Option ℚ) :
    matchInt c a? = true ↔ ∃ a, a? = some a ∧ pyInt c = pyInt a := by
  cases a? <;> simp [matchInt, pyIntEq]

/-- The similarity threshold as a division. -/
theorem mkRat_four_five : mkRat 4 5 = (4/5 : ℚ) := by
  rw [Rat.mkRat_eq_div]; norm_num

/-- The cross-multiplied tolerance test agrees with the exact rational
statement of `abs(calculated - actual) < 0.01`. -/
theorem rateClose_iff (c a : ℚ) : rateClose c a = true ↔ |c - a| < 1/100 := by
  unfold rateClose
  rw [decide_eq_true_eq]
  have hden : (0:ℚ) < ((c.den * a.den : ℕ) : ℚ) := by
    have h1 : 0 < c.den * a.den := Nat.mul_pos c.pos a.pos
    exact_mod_cast h1
  have hsub : c - a =
      ((c.num * a.den - a.num * c.den : ℤ) : ℚ) / ((c.den * a.den : ℕ) : ℚ) := by
    rw [Rat.sub_def', Rat.mkRat_eq_div]
  have habs : |((c.num * a.den - a.num * c.den : ℤ) : ℚ)| =
      (((c.num * a.den - a.num * c.den : ℤ).natAbs : ℕ) : ℚ) := by
    rw [Int.cast_natAbs, Int.cast_abs]
  rw [hsub, abs_div, abs_of_pos hden,
    div_lt_div_iff₀ hden (by norm_num : (0:ℚ) < 100), one_mul, habs]
  norm_cast
  omega

/-- The visit-section match flag holds exactly when the coordinate was in
range and the mode-appropriate comparison succeeds. -/
theorem matchValue_iff (rt : String) (c : ℚ) (a? : Option ℚ) :
    matchValue rt c a? = true ↔
      ∃ a, a? = some a ∧
        (if rt = "compliance_rate" then |c - a| < 1/100
         else pyInt c = pyInt a) := by
  by_cases h : rt = "compliance_rate"
  · cases a? <;> simp [matchValue, h, rateClose_iff]
  · cases a? <;> simp [matchValue, h, matchInt, pyIntEq]

/-! ## Claim theorems -/

/-- C3: every label pair is classified into exactly one verdict of the
closed eight-element set, and a pair of equal labels is always classified
`exactMatch`, whatever the similarity function computes. -/
theorem classifier_closed_set_and_reflexive :
    (∀ ratio x y, analyze_difference ratio x y = .exactMatch ∨
      analyze_difference ratio x y = .spaceDifference ∨
      analyze_difference ratio x y = .caseDifference ∨
      (∃ s, analyze_difference ratio x y = .spellingError s) ∨
      analyze_difference ratio x y = .wordOrderDifference ∨
      analyze_difference ratio x y = .extraWordsInVerification ∨
      analyze_difference ratio x y = .missingWordsInVerification ∨
      analyze_difference ratio x y = .contentDifference) ∧
    (∀ ratio x, analyze_difference ratio x x = .exactMatch) := by
  constructor
  · intro ratio x y
    simp only [analyze_difference]
    split_ifs <;>
      first
        | exact Or.inl rfl
        | exact Or.inr (Or.inl rfl)
        | exact Or.inr (Or.inr (Or.inl rfl))
        | exact Or.inr (Or.inr (Or.inr (Or.inl ⟨_, rfl⟩)))
        | exact Or.inr (Or.inr (Or.inr (Or.inr (Or.inl rfl))))
        | exact Or.inr (Or.inr (Or.inr (Or.inr (Or.inr (Or.inl rfl)))))
        | exact Or.inr (Or.inr (Or.inr (Or.inr (Or.inr (Or.inr (Or.inl rfl))))))
        | exact Or.inr (Or.inr (Or.inr (Or.inr (Or.inr (Or.inr (Or.inr rfl))))))
  · intro ratio x
    simp [analyze_difference]

/-- C4: for a pair that is not equal, not a whitespace variant and not a
case variant, the classifier reports a spelling error exactly when the
similarity of the lower-cased labels is strictly greater than `4/5`; in
particular a similarity of exactly `4/5` is never a spelling error. -/
theorem spelling_error_iff_similarity_above_080 (ratio : String → String → ℚ)
    (d v : String) (h1 : d ≠ v) (h2 : normSpaces d ≠ normSpaces v)
    (h3 : pyLower d ≠ pyLower v) :
    ((∃ s, analyze_difference ratio d v = .spellingError s) ↔
      ratio (pyLower d) (pyLower v) > 4/5) ∧
    (ratio (pyLower d) (pyLower v) = 4/5 →
      ∀ s, analyze_difference ratio d v ≠ .spellingError s) := by
  simp only [analyze_difference, if_neg h1, if_neg h2, if_neg h3, mkRat_four_five]
  by_cases hr : ratio (pyLower d) (pyLower v) > 4/5
  · constructor
    · exact ⟨fun _ => hr, fun _ => ⟨_, by rw [if_pos hr]⟩⟩
    · intro heq
      rw [heq] at hr
      exact absurd hr (lt_irrefl _)
  · rw [if_neg hr]
    constructor
    · constructor
      · rintro ⟨s, hs⟩
        exfalso
        revert hs
        split_ifs <;> simp
      · intro h
        exact absurd h hr
    · intro _ s
      split_ifs <;> simp

/-- C4 witness: at similarity exactly `4/5` (the `0.80` boundary) the pair
`ab`/`cd` is not classified as a spelling error. -/
theorem c4_witness :
    ("ab" : String) ≠ "cd" ∧ normSpaces "ab" ≠ normSpaces "cd" ∧
    pyLower "ab" ≠ pyLower "cd" ∧
    analyze_difference (fun _ _ => (4:ℚ)/5) "ab" "cd" ≠ .spellingError ((4:ℚ)/5) :=
  ⟨by decide, by decide, by decide,
   (spelling_error_iff_similarity_above_080 (fun _ _ => (4:ℚ)/5) "ab" "cd"
     (by decide) (by decide) (by decide)).2 rfl _⟩

/-- C5: for a pair that reaches the word-containment rules, containment of
the expected tokens in the actual tokens yields `extraWordsInVerification`,
and otherwise containment of the actual tokens in the expected tokens
yields `missingWordsInVerification`. -/
theorem word_containment_rules (ratio : String → String → ℚ) (d v : String)
    (h1 : d ≠ v) (h2 : normSpaces d ≠ normSpaces v)
    (h3 : pyLower d ≠ pyLower v)
    (h4 : ¬ ratio (pyLower d) (pyLower v) > 4/5)
    (h5 : sortStrings (pySplit (pyLower d)) ≠ sortStrings (pySplit (pyLower v))) :
    ((pySplit (pyLower d)).all (fun w => (pySplit (pyLower v)).contains w) = true →
      analyze_difference ratio d v = .extraWordsInVerification) ∧
    ((pySplit (pyLower d)).all (fun w => (pySplit (pyLower v)).contains w) = false →
      (pySplit (pyLower v)).all (fun w => (pySplit (pyLower d)).contains w) = true →
      analyze_difference ratio d v = .missingWordsInVerification) := by
  rw [show (4/5 : ℚ) = mkRat 4 5 from mkRat_four_five.symm] at h4
  simp only [analyze_difference, if_neg h1, if_neg h2, if_neg h3, if_neg h4, if_neg h5]
  constructor
  · intro h6
    rw [if_pos h6]
  · intro h6 h7
    rw [if_neg (by simp only [h6]; exact Bool.false_ne_true), if_pos h7]

/-- C5 witness: `alpha` versus `alpha beta` reaches the containment rules
and is classified `extraWordsInVerification`. -/
theorem c5_witness :
    (pySplit (pyLower "alpha")).all
      (fun w => (pySplit (pyLower "alpha beta")).contains w) = true ∧
    analyze_difference (fun _ _ => 0) "alpha" "alpha beta" =
      .extraWordsInVerification :=
  ⟨by decide,
   (word_containment_rules (fun _ _ => 0) "alpha" "alpha beta" (by decide)
     (by decide) (by decide) (by norm_num) (by decide)).1 (by decide)⟩

/-- A positional discrepancy records the 1-based index and a classifier
verdict (never the count-mismatch marker). -/
theorem positionalDiscrepancy_fields (ratio : String → String → ℚ)
    (dcs vcs : List String) (i : Nat) (p : ColumnDiscrepancy)
    (h : positionalDiscrepancy ratio dcs vcs i = some p) :
    p.column_number = some (i + 1) ∧
    p.error_type = .verdict (analyze_difference ratio (dcs.getD i "") (vcs.getD i "")) := by
  simp only [positionalDiscrepancy] at h
  split at h
  · exact absurd h (by simp)
  · cases h.symm
    exact ⟨rfl, rfl⟩

/-- C6: the structural comparison pairs labels positionally only up to the
minimum length, appends exactly one count-mismatch entry when the lengths
differ (none otherwise), the three-versus-two example yields exactly one
count-mismatch discrepancy and no positional one, and the result passes
exactly when no discrepancy was recorded. -/
theorem structural_comparator_length_handling :
    (∀ (ratio : String → String → ℚ) (dcs vcs : List String),
      (compareColumns ratio dcs vcs).countP
          (fun p => decide (p.error_type = .countMismatch)) =
        if dcs.length = vcs.length then 0 else 1) ∧
    (∀ (ratio : String → String → ℚ) (dcs vcs : List String)
      (p : ColumnDiscrepancy), p ∈ compareColumns ratio dcs vcs →
      ∀ k, p.column_number = some k → k ≤ min dcs.length vcs.length) ∧
    (compareColumns (fun _ _ => 0) ["A","B","C"] ["A","B"] =
      [⟨none, "Total columns: 3", "Total columns: 2", .countMismatch⟩]) ∧
    (∀ (ratio : String → String → ℚ) (n : Nat) (dcs vcs : List String),
      (test_standard_report_columns ratio n (.ok dcs) (.ok vcs)).passed = true ↔
        compareColumns ratio dcs vcs = []) ∧
    ((test_standard_report_columns (fun _ _ => 0) 1 (.ok ["A","B","C"])
        (.ok ["A","B"])).passed = false) := by
  refine ⟨?_, ?_, by decide, ?_, by decide⟩
  · intro ratio dcs vcs
    unfold compareColumns
    rw [List.countP_append]
    have hpos : ((List.range (min dcs.length vcs.length)).filterMap
        (positionalDiscrepancy ratio dcs vcs)).countP
          (fun p => decide (p.error_type = .countMismatch)) = 0 := by
      rw [List.countP_eq_zero]
      intro p hp
      rw [List.mem_filterMap] at hp
      obtain ⟨i, _, hsome⟩ := hp
      rw [(positionalDiscrepancy_fields ratio dcs vcs i p hsome).2]
      simp
    rw [hpos]
    unfold countMismatchEntry
    by_cases hlen : dcs.length = vcs.length <;> simp [hlen]
  · intro ratio dcs vcs p hp k hk
    unfold compareColumns at hp
    rw [List.mem_append] at hp
    rcases hp with hp | hp
    · rw [List.mem_filterMap] at hp
      obtain ⟨i, hi, hsome⟩ := hp
      have h2 := (positionalDiscrepancy_fields ratio dcs vcs i p hsome).1
      rw [h2] at hk
      cases hk
      rw [List.mem_range] at hi
      omega
    · unfold countMismatchEntry at hp
      split at hp
      · simp at hp
      · simp at hp
        rw [hp] at hk
        cases hk
  · intro ratio n dcs vcs
    simp only [test_standard_report_columns]
    by_cases h : compareColumns ratio dcs vcs = [] <;>
      simp [h, List.isEmpty_iff]

/-- C6 witness: a positional discrepancy at index 2 of a two-column pair
stays within the minimum length. -/
theorem c6_witness :
    (⟨some 2, "X", "Y", .verdict .contentDifference⟩ : ColumnDiscrepancy)
      ∈ compareColumns (fun _ _ => 0) ["A","X"] ["A","Y"] ∧
    (2 : Nat) ≤ min (["A","X"] : List String).length (["A","Y"] : List String).length :=
  ⟨by decide,
   structural_comparator_length_handling.2.1 (fun _ _ => 0) ["A","X"] ["A","Y"]
     ⟨some 2, "X", "Y", .verdict .contentDifference⟩ (by decide) 2 rfl⟩

/-- C9: when either header extraction fails, the comparison returns a
failed result carrying the read-failure message and no details — the
embedding is a total function, so nothing propagates past this boundary. -/
theorem read_failure_short_circuits :
    (∀ (ratio : String → String → ℚ) (n : Nat) (e : String)
      (v : Except String (List String)),
      test_standard_report_columns ratio n (.error e) v =
        ⟨false, "Error reading files for Standard " ++ toString n ++ ": " ++ e, []⟩) ∧
    (∀ (ratio : String → String → ℚ) (n : Nat) (e : String) (dcs : List String),
      test_standard_report_columns ratio n (.ok dcs) (.error e) =
        ⟨false, "Error reading files for Standard " ++ toString n ++ ": " ++ e, []⟩) :=
  ⟨fun _ _ _ _ => rfl, fun _ _ _ _ => rfl⟩

/-- C1 (amended): every Reconciliation Cell Result produced by
`verify_visit_section` or `verify_exclusion_service_ended_section` has
`match = true` iff the coordinate was in range and, for compliance-rate
rows, the calculated and published values differ by strictly less than
`0.01`, while for integer rows their `int()` truncations toward zero
agree (an empty or non-parseable summary cell was already coalesced to
`0` in the stored `actual`). -/
theorem visit_section_match_characterization :
    (∀ (df : DataFrame) (cols : ReqCols) (summary : SummaryDF)
      (sr er : Nat) (sn : String) (res : List (String × CellResult))
      (p : String × CellResult),
      verify_visit_section df cols summary sr er sn = .ok res → p ∈ res →
      (p.2.matched = true ↔ ∃ a, p.2.actual = some a ∧
        (if p.2.rowType = "compliance_rate" then |p.2.calculated - a| < 1/100
         else pyInt p.2.calculated = pyInt a))) ∧
    (∀ (std1 std2 std3 : DataFrame) (summary : SummaryDF) (sr er : Nat)
      (res : List (String × CellResult)) (p : String × CellResult),
      verify_exclusion_service_ended_section std1 std2 std3 summary sr er = .ok res →
      p ∈ res →
      (p.2.matched = true ↔ ∃ a, p.2.actual = some a ∧
        pyInt p.2.calculated = pyInt a)) := by
  constructor
  · intro df cols summary sr er sn res p hok hp
    simp only [verify_visit_section] at hok
    split at hok
    · exact Except.noConfusion hok
    · rw [Except.ok.injEq] at hok
      subst hok
      rw [List.mem_flatMap] at hp
      obtain ⟨q, _, hp⟩ := hp
      rw [List.mem_map] at hp
      obtain ⟨ct, _, hpe⟩ := hp
      subst hpe
      simp only [mkVisitCell]
      exact matchValue_iff _ _ _
  · intro std1 std2 std3 summary sr er res p hok hp
    simp only [verify_exclusion_service_ended_section] at hok
    split at hok
    · exact Except.noConfusion hok
    split at hok
    · exact Except.noConfusion hok
    split at hok
    · exact Except.noConfusion hok
    split at hok
    · exact Except.noConfusion hok
    split at hok
    · exact Except.noConfusion hok
    split at hok
    · exact Except.noConfusion hok
    rw [Except.ok.injEq] at hok
    subst hok
    rw [List.mem_append, List.mem_append] at hp
    rcases hp with (hp | hp) | hp <;>
    · unfold exclusionReportCells at hp
      rw [List.mem_map] at hp
      obtain ⟨ct, _, hpe⟩ := hp
      subst hpe
      simp only [mkExclusionCell]
      exact matchInt_iff _ _

/-- C1 counterexample: the integer-mode cell `C3` of a concrete 7-day run
whose summary cell holds `1/2` has `match = true` although its calculated
value `0` is not numerically equal to the published `1/2` — the source
compares `int(calculated) == int(actual)`, and `int(1/2) = 0`. -/
theorem c1_counterexample :
    c1Run.toOption.bind (List.lookup "C3") = some c1CellC3 ∧
    c1CellC3.matched = true ∧ c1CellC3.actual = some (mkRat 1 2) ∧
    c1CellC3.rowType ≠ "compliance_rate" ∧
    c1CellC3.calculated ≠ mkRat 1 2 :=
  ⟨by decide, by decide, by decide, by decide, by decide⟩

/-- C1 witness: the characterization applied to the concrete 7-day run at
cell `C3`. -/
theorem c1_witness :
    c1Run = .ok c1ResList ∧ ("C3", c1CellC3) ∈ c1ResList ∧
    c1CellC3.matched = true := by
  refine ⟨by decide, by decide, ?_⟩
  refine (visit_section_match_characterization.1 c1Df stdReqCols halfSummary
    2 5 "7-day" c1ResList ("C3", c1CellC3) (by decide) (by decide)).mpr ?_
  refine ⟨mkRat 1 2, by decide, ?_⟩
  rw [if_neg (by decide)]
  decide

/-- C2 (amended): in the exclusion-style sections (whereabouts-unknown
and exclusion - service ended), the 90-day row's child-in-care cell is the
constant `0` whatever the detail sheets contain — concretely, a sheet with
five matching child-in-care whereabouts rows still reconciles `B21` to a
calculated `0`.  (The 90-day *visit* section itself computes child in care
from the data; see the counterexample.) -/
theorem exclusion_sections_child_in_care_zero :
    (∀ (df : DataFrame) (cols : ReqCols) (pcol : String) (summary : SummaryDF)
      (row idx : Nat),
      (mkWhereaboutsCell df cols pcol summary "90-day" row "child in care" idx).calculated = 0) ∧
    (∀ (df : DataFrame) (ctc excol : String) (summary : SummaryDF) (row idx : Nat),
      (mkExclusionCell df ctc excol summary "90-day" row "child in care" idx).calculated = 0) ∧
    ((c2wRun.toOption.bind (List.lookup "B21")).map CellResult.calculated = some 0) ∧
    (whereaboutsCountUsing c2wStd c2wCols "Primary In Care Placement Type"
      "child in care" = 5) := by
  refine ⟨?_, ?_, by decide, by decide⟩
  · intro df cols pcol summary row idx
    simp [mkWhereaboutsCell]
  · intro df ctc excol summary row idx
    simp [mkExclusionCell]

/-- C2 counterexample: the 90-day *visit* section run on a detail sheet
with five matching child-in-care rows computes `5`, not `0`, for the
child-in-care total cell `B13` — `verify_visit_section` has no
child-in-care exclusion. -/
theorem c2_counterexample :
    (c2Run.toOption.bind (List.lookup "B13")).map CellResult.calculated = some 5 ∧
    (5 : ℚ) ≠ 0 :=
  ⟨by decide, by decide⟩

/-- C7: a compliance-rate cell whose total count is zero computes `0`; the
guarded embedding (`if total_count > 0`) is total, so the division is
never taken on a zero denominator and no error can be signalled. -/
theorem compliance_rate_zero_denominator :
    ∀ (filtered : List Row) (cols : ReqCols) (section_name case_type : String),
      visitTotalCount filtered cols section_name case_type = 0 →
      visitCalculated filtered cols section_name "compliance_rate" case_type = 0 := by
  intro filtered cols sn ct h
  unfold visitCalculated
  rw [if_neg (by decide), if_neg (by decide), if_neg (by decide)]
  simp [h]

/-- C7 witness: the empty sheet has total count `0` and compliance rate
`0`. -/
theorem c7_witness :
    visitTotalCount [] stdReqCols "7-day" "adoption" = 0 ∧
    visitCalculated [] stdReqCols "7-day" "compliance_rate" "adoption" = 0 :=
  ⟨by decide,
   compliance_rate_zero_denominator [] stdReqCols "7-day" "adoption" (by decide)⟩

/-- C8: a required column that cannot be discovered in *any* of the three
detail sheets aborts the reconciliation with an error entry and no
per-cell results at all (`requiredColumnsCheck` never returns `.ok`); the
first affected report in check order determines the error entry, which
names that report and its missing column keys.  Likewise a missing
exclusion column in any of the three sheets aborts the service-ended
section with the corresponding section-level error entry before any cell
is computed. -/
theorem missing_columns_abort_section :
    (∀ c1 c2 c3 : FoundColumns,
      missingKeys c1 ≠ [] ∨ missingKeys c2 ≠ [] ∨ missingKeys c3 ≠ [] →
      (∃ e, requiredColumnsCheck c1 c2 c3 = .error e) ∧
      ∀ r, requiredColumnsCheck c1 c2 c3 ≠ .ok r) ∧
    (∀ c1 c2 c3 : FoundColumns, missingKeys c1 ≠ [] →
      requiredColumnsCheck c1 c2 c3 =
        .error ("Missing columns in Standard 1: " ++ toString (missingKeys c1))) ∧
    (∀ c1 c2 c3 : FoundColumns, missingKeys c1 = [] → missingKeys c2 ≠ [] →
      requiredColumnsCheck c1 c2 c3 =
        .error ("Missing columns in Standard 2: " ++ toString (missingKeys c2))) ∧
    (∀ c1 c2 c3 : FoundColumns, missingKeys c1 = [] → missingKeys c2 = [] →
      missingKeys c3 ≠ [] →
      requiredColumnsCheck c1 c2 c3 =
        .error ("Missing columns in Standard 3: " ++ toString (missingKeys c3))) ∧
    (∀ (std1 std2 std3 : DataFrame) (summary : SummaryDF) (sr er : Nat),
      find_exclusion_column std1.cols "7 day" = none →
      verify_exclusion_service_ended_section std1 std2 std3 summary sr er =
        .error "7 Day Private Visit Exclusion column not found in Standard 1 Report") ∧
    (∀ (std1 std2 std3 : DataFrame) (summary : SummaryDF) (sr er : Nat) (e1 : String),
      find_exclusion_column std1.cols "7 day" = some e1 →
      find_exclusion_column std2.cols "30 day" = none →
      verify_exclusion_service_ended_section std1 std2 std3 summary sr er =
        .error "30 Day Private Visit Exclusion column not found in Standard 2 Report") ∧
    (∀ (std1 std2 std3 : DataFrame) (summary : SummaryDF) (sr er : Nat) (e1 e2 : String),
      find_exclusion_column std1.cols "7 day" = some e1 →
      find_exclusion_column std2.cols "30 day" = some e2 →
      find_exclusion_column std3.cols "90 day" = none →
      verify_exclusion_service_ended_section std1 std2 std3 summary sr er =
        .error "90 Day Visit Exclusion column not found in Standard 3 Report") := by
  have hstd1 : ∀ c1 c2 c3 : FoundColumns, missingKeys c1 ≠ [] →
      requiredColumnsCheck c1 c2 c3 =
        .error ("Missing columns in Standard 1: " ++ toString (missingKeys c1)) := by
    intro c1 c2 c3 h
    unfold requiredColumnsCheck
    rw [if_pos h]
  have hstd2 : ∀ c1 c2 c3 : FoundColumns, missingKeys c1 = [] → missingKeys c2 ≠ [] →
      requiredColumnsCheck c1 c2 c3 =
        .error ("Missing columns in Standard 2: " ++ toString (missingKeys c2)) := by
    intro c1 c2 c3 h1 h2
    unfold requiredColumnsCheck
    rw [if_neg (by simp [h1]), if_pos h2]
  have hstd3 : ∀ c1 c2 c3 : FoundColumns, missingKeys c1 = [] → missingKeys c2 = [] →
      missingKeys c3 ≠ [] →
      requiredColumnsCheck c1 c2 c3 =
        .error ("Missing columns in Standard 3: " ++ toString (missingKeys c3)) := by
    intro c1 c2 c3 h1 h2 h3
    unfold requiredColumnsCheck
    rw [if_neg (by simp [h1]), if_neg (by simp [h2]), if_pos h3]
  refine ⟨?_, hstd1, hstd2, hstd3, ?_, ?_, ?_⟩
  · intro c1 c2 c3 h
    have he : ∃ e, requiredColumnsCheck c1 c2 c3 = .error e := by
      by_cases h1 : missingKeys c1 = []
      · by_cases h2 : missingKeys c2 = []
        · rcases h with h | h | h
          · exact absurd h1 h
          · exact absurd h2 h
          · exact ⟨_, hstd3 c1 c2 c3 h1 h2 h⟩
        · exact ⟨_, hstd2 c1 c2 c3 h1 h2⟩
      · exact ⟨_, hstd1 c1 c2 c3 h1⟩
    obtain ⟨e, he2⟩ := he
    exact ⟨⟨e, he2⟩, fun r hc => Except.noConfusion (he2.symm.trans hc)⟩
  · intro std1 std2 std3 summary sr er h
    unfold verify_exclusion_service_ended_section
    rw [h]
  · intro std1 std2 std3 summary sr er e1 h1 h2
    unfold verify_exclusion_service_ended_section
    rw [h1, h2]
  · intro std1 std2 std3 summary sr er e1 e2 h1 h2 h3
    unfold verify_exclusion_service_ended_section
    rw [h1, h2, h3]

/-- C8 witness: a missing compliant column in any of the three slots
aborts the run with the matching report named, and a missing exclusion
column in the first, second or third sheet aborts the service-ended
section with the matching section error. -/
theorem c8_witness :
    missingKeys c8Found ≠ [] ∧ missingKeys c8FoundOk = [] ∧
    requiredColumnsCheck c8Found c8FoundOk c8FoundOk =
      .error ("Missing columns in Standard 1: " ++ toString (missingKeys c8Found)) ∧
    requiredColumnsCheck c8FoundOk c8Found c8FoundOk =
      .error ("Missing columns in Standard 2: " ++ toString (missingKeys c8Found)) ∧
    requiredColumnsCheck c8FoundOk c8FoundOk c8Found =
      .error ("Missing columns in Standard 3: " ++ toString (missingKeys c8Found)) ∧
    find_exclusion_column c8NoExclDf.cols "7 day" = none ∧
    verify_exclusion_service_ended_section c8NoExclDf c8NoExclDf c8NoExclDf
      halfSummary 23 25 =
      .error "7 Day Private Visit Exclusion column not found in Standard 1 Report" ∧
    verify_exclusion_service_ended_section c8ExclDf1 c8NoExclDf c8NoExclDf
      halfSummary 23 25 =
      .error "30 Day Private Visit Exclusion column not found in Standard 2 Report" ∧
    verify_exclusion_service_ended_section c8ExclDf1 c8ExclDf2 c8NoExclDf
      halfSummary 23 25 =
      .error "90 Day Visit Exclusion column not found in Standard 3 Report" :=
  ⟨by decide, by decide,
   missing_columns_abort_section.2.1 c8Found c8FoundOk c8FoundOk (by decide),
   missing_columns_abort_section.2.2.1 c8FoundOk c8Found c8FoundOk
     (by decide) (by decide),
   missing_columns_abort_section.2.2.2.1 c8FoundOk c8FoundOk c8Found
     (by decide) (by decide) (by decide),
   by decide,
   missing_columns_abort_section.2.2.2.2.1 c8NoExclDf c8NoExclDf c8NoExclDf
     halfSummary 23 25 (by decide),
   missing_columns_abort_section.2.2.2.2.2.1 c8ExclDf1 c8NoExclDf c8NoExclDf
     halfSummary 23 25 "7 Day Private Visit Exclusion - Closed Prior to Due Date"
     (by decide) (by decide),
   missing_columns_abort_section.2.2.2.2.2.2 c8ExclDf1 c8ExclDf2 c8NoExclDf
     halfSummary 23 25 "7 Day Private Visit Exclusion - Closed Prior to Due Date"
     "30 Day Private Visit Exclusion - Closed Prior to Due Date"
     (by decide) (by decide) (by decide)⟩

/-- C10: every successful whereabouts-unknown reconciliation builds all
three report rows from the placement column name discovered in the
Standard 1 report; concretely, when Standard 2 carries two placement-like
columns, its cell `C20` counts `1` using Standard 1's column name although
filtering by Standard 2's own discovered column would count `0`. -/
theorem whereabouts_uses_std1_placement_column :
    (∀ (std1 std2 std3 : DataFrame) (cols1 cols2 cols3 : ReqCols)
      (summary : SummaryDF) (sr er : Nat) (p1 : String)
      (res : List (String × CellResult)),
      find_primary_placement_column std1.cols = some p1 →
      verify_whereabouts_unknown_section std1 std2 std3 cols1 cols2 cols3
        summary sr er = .ok res →
      res = whereaboutsReportCells std1 cols1 p1 summary "7-day" sr ++
            whereaboutsReportCells std2 cols2 p1 summary "30-day" (sr + 1) ++
            whereaboutsReportCells std3 cols3 p1 summary "90-day" (sr + 2)) ∧
    ((c10Run.toOption.bind (List.lookup "C20")).map CellResult.calculated = some 1) ∧
    (find_primary_placement_column c10Std2.cols =
      some "Primary In Care Placement Type Two") ∧
    (whereaboutsCountUsing c10Std2 c10Cols "Primary In Care Placement Type Two"
      "adoption" = 0) ∧
    (whereaboutsCountUsing c10Std2 c10Cols "Primary In Care Placement Type One"
      "adoption" = 1) := by
  refine ⟨?_, by decide, by decide, by decide, by decide⟩
  intro std1 std2 std3 cols1 cols2 cols3 summary sr er p1 res h1 hok
  unfold verify_whereabouts_unknown_section at hok
  rw [h1] at hok
  dsimp only [] at hok
  split at hok
  · exact Except.noConfusion hok
  split at hok
  · exact Except.noConfusion hok
  split at hok
  · rw [Except.ok.injEq] at hok
    exact hok.symm
  · exact Except.noConfusion hok

/-- C10 witness: the theorem applied to the two-placement-column scenario.
Standard 1's discovered column name is used for every report row. -/
theorem c10_witness :
    find_primary_placement_column c10Std1.cols =
      some "Primary In Care Placement Type One" ∧
    c10Run = .ok c10ResList ∧
    c10ResList =
      whereaboutsReportCells c10Std1 c10Cols "Primary In Care Placement Type One"
        halfSummary "7-day" 18 ++
      whereaboutsReportCells c10Std2 c10Cols "Primary In Care Placement Type One"
        halfSummary "30-day" (18 + 1) ++
      whereaboutsReportCells c10Std1 c10Cols "Primary In Care Placement Type One"
        halfSummary "90-day" (18 + 2) :=
  ⟨by decide, by decide,
   whereabouts_uses_std1_placement_column.1 c10Std1 c10Std2 c10Std1 c10Cols
     c10Cols c10Cols halfSummary 18 20 "Primary In Care Placement Type One"
     c10ResList (by decide) (by decide)⟩

end CQ091
